import Mathlib

/-!
Verification of the server preferences page of the gns3-gui repository
(`src/gns3/pages/server_preferences_page.py`).

The page manages
* a candidate collection of remote-server records (`_remote_servers`,
  a dict from generated server id to a settings dict, mirrored by the rows
  of a tree widget), edited through add/delete slots, and
* the local-server settings form, written back by `savePreferences` through
  the external `Servers` service.

The embedding below renders the widget state as explicit structures, the
slots as pure state-transforming functions returning the error dialog they
pop (if any), and `savePreferences` as a function from its environment
(filesystem predicates, topology nodes, process-start outcome) to the exact
sequence of externally visible effects it performs.
-/

/-- A remote server settings dict, as built in `_remoteServerAddSlot`:
`{"protocol": ..., "host": ..., "port": ..., "user": ..., "ssh_port": ...,
"ssh_key": ...}`. -/
structure RemoteServerSettings where
  protocol : String
  host : String
  port : Int
  user : String
  ssh_port : Int
  ssh_key : String
deriving DecidableEq

/-- A row of `uiRemoteServersTreeWidget`: the four text columns set by the
add slot / `loadPreferences`, plus the `settings` dict and `server_id`
attached to the item. -/
structure TreeItem where
  text0 : String
  text1 : String
  text2 : String
  text3 : String
  settings : RemoteServerSettings
  server_id : Nat
deriving DecidableEq

/-- The widget state of the remote-server half of the page: the edit
fields read by `_remoteServerAddSlot`, the `_remote_servers` dict
(as an insertion-ordered association list), the tree rows, and the
fresh-id supply.

`next_server_id` models `uuid.uuid4()` as a deterministic fresh-id
counter: each generated id is the current counter value and the counter
then increases, so that (under the `idsFresh` invariant) every generated
id is distinct from every id already present, which is the intent of
drawing a fresh UUID. -/
structure RemotePanelState where
  protocolField : String
  hostField : String
  portField : Int
  userField : String
  ssh_portField : Int
  ssh_keyField : String
  remote_servers : List (Nat × RemoteServerSettings)
  treeItems : List TreeItem
  next_server_id : Nat
deriving DecidableEq

/-- The errors the page reports through modal dialogs. -/
inductive UserError where
  | InvalidHost (host : String)
  | InvalidPort (port : Int)
  | MissingUser
  | MissingSSHKey
  | DuplicateServer
  | InvalidConsoleRange (lo hi : Int)
  | InvalidUDPRange (lo hi : Int)
  | ServerPathNotFound (path : String)
  | ServerNotExecutable (path : String)
  | ServerInUse (nodes : List String)
  | StartFailed (path : String)
deriving DecidableEq

/-- Whether an error is one of the two "MissingCredential" dialogs of the
add slot ("Missing user login" / "Missing SSH key"). -/
def isMissingCredential : UserError → Bool
  | UserError.MissingUser => true
  | UserError.MissingSSHKey => true
  | _ => false

/-- Whether an error is one of the two "invalid port range" dialogs of
`savePreferences`. -/
def isInvalidRange : UserError → Bool
  | UserError.InvalidConsoleRange _ _ => true
  | UserError.InvalidUDPRange _ _ => true
  | _ => false

/-- A character of the class of the hostname pattern
`[a-zA-Z0-9\.Ͱ-᳟Ⰰ-ヿ一-龿-]`:
ASCII letters and digits, dot, hyphen, and the three Unicode letter
ranges used for internationalized hostnames. -/
def hostAllowedChar (c : Char) : Bool :=
  ('a' ≤ c && c ≤ 'z') || ('A' ≤ c && c ≤ 'Z') || ('0' ≤ c && c ≤ '9') ||
  c = '.' || c = '-' ||
  (0x370 ≤ c.toNat && c.toNat ≤ 0x1CDF) ||
  (0x2C00 ≤ c.toNat && c.toNat ≤ 0x30FF) ||
  (0x4E00 ≤ c.toNat && c.toNat ≤ 0x9FBF)

/-- Shallow embedding of
`re.match(r"^[a-zA-Z0-9\.Ͱ-᳟Ⰰ-ヿ一-龿-]+$", host)`
succeeding: the string is one or more characters of the class.  The source
only ever applies the pattern to `.strip()`-ed text, which never ends in a
newline, so the end-anchor-before-a-final-newline subtlety of the Python
`$` anchor cannot arise. -/
def hostMatches (host : String) : Bool :=
  host ≠ "" && host.toList.all hostAllowedChar

/-- Python `str.strip()`: remove leading and trailing whitespace.
(The texts involved are ASCII, where `Char.isWhitespace` and Python's
whitespace class agree.) -/
def pyStrip (s : String) : String :=
  String.mk (((s.toList.dropWhile Char.isWhitespace).reverse.dropWhile
    Char.isWhitespace).reverse)

/-- Python `str.lower()`: lowercase every character.  (The protocol
texts of the combo box are ASCII, where `Char.toLower` and Python's
lowercasing agree.) -/
def pyLower (s : String) : String :=
  String.mk (s.toList.map Char.toLower)

/-- The duplicate check of `_remoteServerAddSlot`:
`server["protocol"] == protocol and server["host"] == host and
server["port"] == port and server["user"] == user`. -/
def sameQuad (server : RemoteServerSettings) (protocol host : String)
    (port : Int) (user : String) : Bool :=
  server.protocol == protocol && server.host == host &&
  server.port == port && server.user == user

/-- The settings dict built by `_remoteServerAddSlot` from the (already
lowercased / stripped) field values. -/
def newRecord (st : RemotePanelState) : RemoteServerSettings :=
  { protocol := pyLower st.protocolField
    host := pyStrip st.hostField
    port := st.portField
    user := pyStrip st.userField
    ssh_port := st.ssh_portField
    ssh_key := pyStrip st.ssh_keyField }

/-- The tree row built by `_remoteServerAddSlot` for the new record. -/
def newTreeItem (st : RemotePanelState) : TreeItem :=
  { text0 := pyLower st.protocolField
    text1 := pyStrip st.hostField
    text2 := toString st.portField
    text3 := pyStrip st.userField
    settings := newRecord st
    server_id := st.next_server_id }

/-- `_remoteServerAddSlot`: reads the edit fields (lowercasing the
protocol, stripping host / user / ssh key), validates in source order
(hostname pattern, port, ssh user, ssh key, duplicate), and on success
stores the record under a fresh id, appends a tree row and bumps the port
spin box by one.  Returns the new state together with the error dialog
shown, if any. -/
def remoteServerAdd (st : RemotePanelState) : RemotePanelState × Option UserError :=
  let protocol := pyLower st.protocolField
  let host := pyStrip st.hostField
  let port := st.portField
  let user := pyStrip st.userField
  let ssh_key := pyStrip st.ssh_keyField
  if !hostMatches host then
    (st, some (UserError.InvalidHost host))
  else if port < 1 then
    (st, some (UserError.InvalidPort port))
  else if protocol == "ssh" && user.length == 0 then
    (st, some UserError.MissingUser)
  else if protocol == "ssh" && ssh_key.length == 0 then
    (st, some UserError.MissingSSHKey)
  else if st.remote_servers.any (fun p => sameQuad p.2 protocol host port user) then
    (st, some UserError.DuplicateServer)
  else
    ({ st with
        remote_servers := st.remote_servers ++ [(st.next_server_id, newRecord st)]
        treeItems := st.treeItems ++ [newTreeItem st]
        portField := st.portField + 1
        next_server_id := st.next_server_id + 1 }, none)

/-- `_remoteServerDeleteSlot`: if a row is selected (`sel` is its index),
delete its id from `_remote_servers` and take the row out of the tree;
otherwise do nothing. -/
def remoteServerDelete (st : RemotePanelState) (sel : Option Nat) : RemotePanelState :=
  match sel with
  | none => st
  | some idx =>
    match st.treeItems[idx]? with
    | none => st
    | some item =>
      { st with
          remote_servers := st.remote_servers.filter (fun p => p.1 ≠ item.server_id)
          treeItems := st.treeItems.eraseIdx idx }

/-- The remote half of `loadPreferences`: clear `_remote_servers` and the
tree, then rebuild both from the external collection
`servers.remoteServers()`. -/
def loadRemoteServers (st : RemotePanelState)
    (ext : List (Nat × RemoteServerSettings)) : RemotePanelState :=
  { st with
      remote_servers := ext
      treeItems := ext.map (fun p =>
        { text0 := p.2.protocol
          text1 := p.2.host
          text2 := toString p.2.port
          text3 := p.2.user
          settings := p.2
          server_id := p.1 }) }

/-- No two records of the collection agree on (protocol, host, port,
user). -/
def noDupQuad (l : List (Nat × RemoteServerSettings)) : Prop :=
  l.Pairwise (fun a b => sameQuad a.2 b.2.protocol b.2.host b.2.port b.2.user = false)

/-- Every id in `_remote_servers` is below the fresh-id counter, so the
next generated id is new. -/
def idsFresh (st : RemotePanelState) : Bool :=
  st.remote_servers.all (fun p => p.1 < st.next_server_id)

/-- The local-server settings dict (`LOCAL_SERVER_SETTINGS` shape): the
nine fields exposed by the form plus the three passthrough fields. -/
structure LocalServerSettings where
  path : String
  host : String
  port : Int
  auto_start : Bool
  allow_console_from_anywhere : Bool
  console_start_port_range : Int
  console_end_port_range : Int
  udp_start_port_range : Int
  udp_end_port_range : Int
  images_path : String
  projects_path : String
  report_errors : Bool
deriving DecidableEq

/-- The form fields read at the top of `savePreferences`. -/
structure LocalServerForm where
  path : String
  host : String
  port : Int
  auto_start : Bool
  allow_console_from_anywhere : Bool
  console_start_port_range : Int
  console_end_port_range : Int
  udp_start_port_range : Int
  udp_end_port_range : Int
deriving DecidableEq

/-- The `new_settings` dict of `savePreferences`: the form fields plus
`images_path`, `projects_path` and `report_errors` copied from the
current settings. -/
def buildNewSettings (form : LocalServerForm)
    (current : LocalServerSettings) : LocalServerSettings :=
  { path := form.path
    host := form.host
    port := form.port
    auto_start := form.auto_start
    allow_console_from_anywhere := form.allow_console_from_anywhere
    console_start_port_range := form.console_start_port_range
    console_end_port_range := form.console_end_port_range
    udp_start_port_range := form.udp_start_port_range
    udp_end_port_range := form.udp_end_port_range
    images_path := current.images_path
    projects_path := current.projects_path
    report_errors := current.report_errors }

/-- A node of the open topology, as seen by `savePreferences`:
its `name()` and whether `node.server().isLocal()`. -/
structure TopologyNode where
  name : String
  isLocal : Bool
deriving DecidableEq

/-- The environment `savePreferences` consults: the filesystem checks
`os.path.isfile` and `os.access(..., os.X_OK)`, the nodes of
`Topology.instance()`, and the outcome of `servers.startLocalServer()`. -/
structure SaveEnv where
  isFile : String → Bool
  isExecutable : String → Bool
  nodes : List TopologyNode
  startSucceeds : Bool

/-- The externally visible effects of `savePreferences`, in order:
error dialogs, calls into the `Servers` service, and the modal
connection-wait dialog. -/
inductive Effect where
  | reportError (e : UserError)
  | stopLocalServer (wait : Bool)
  | setLocalServerSettings (s : LocalServerSettings)
  | updateRemoteServers (servers : List (Nat × RemoteServerSettings))
  | persist
  | startLocalServer (ok : Bool)
  | waitForConnection (host : String) (port : Int)
deriving DecidableEq

/-- Whether an effect is only an error dialog (no write, no process
action). -/
def isErrorReport : Effect → Bool
  | Effect.reportError _ => true
  | _ => false

/-- Whether an effect is the "local server in use" dialog. -/
def isServerInUseReport : Effect → Bool
  | Effect.reportError (UserError.ServerInUse _) => true
  | _ => false

/-- Whether an effect is the "could not find local server" dialog. -/
def isPathNotFoundReport : Effect → Bool
  | Effect.reportError (UserError.ServerPathNotFound _) => true
  | _ => false

/-- Whether an add-slot outcome is the "invalid remote server port"
dialog. -/
def isInvalidPortError : Option UserError → Bool
  | some (UserError.InvalidPort _) => true
  | _ => false

/-- The three writes performed once validation is past:
`servers.setLocalServerSettings(new_settings)`,
`servers.updateRemoteServers(self._remote_servers)`, `servers.save()`. -/
def writeEffects (new : LocalServerSettings)
    (remote : List (Nat × RemoteServerSettings)) : List Effect :=
  [Effect.setLocalServerSettings new,
   Effect.updateRemoteServers remote,
   Effect.persist]

/-- The error dialogs shown by the executable check of `savePreferences`:
the `os.access(..., os.X_OK)` failure is reported but — unlike every other
check — not followed by a `return`. -/
def execReports (env : SaveEnv) (new : LocalServerSettings) : List Effect :=
  if !env.isExecutable new.path then
    [Effect.reportError (UserError.ServerNotExecutable new.path)]
  else []

/-- `local_nodes` of `savePreferences`: the names of the topology nodes
whose server is the local server. -/
def localNodeNames (env : SaveEnv) : List String :=
  (env.nodes.filter (fun n => n.isLocal)).map (fun n => n.name)

/-- The tail of `savePreferences` when `restart_local_server` is set:
stop the local server (blocking), start it again, and either block on the
connection-wait dialog or report the start failure. -/
def restartEffects (env : SaveEnv) (new : LocalServerSettings) : List Effect :=
  Effect.stopLocalServer true ::
    (if env.startSucceeds then
      [Effect.startLocalServer true,
       Effect.waitForConnection new.host new.port]
    else
      [Effect.startLocalServer false,
       Effect.reportError (UserError.StartFailed new.path)])

/-- `savePreferences`: build `new_settings` from the form and the current
settings, run the validations in source order, and emit the effect
sequence the method performs.  Mirrors the control flow of the source:
the two range checks and the `isfile` check abort; the executable check
only reports; the local-nodes check aborts; `restart_local_server` is set
only when auto-start is on, the path is a file, the settings changed and
no node runs on the local server; when auto-start is off the local server
is stopped (blocking) before the three writes. -/
def savePreferences (env : SaveEnv) (current : LocalServerSettings)
    (remote : List (Nat × RemoteServerSettings))
    (form : LocalServerForm) : List Effect :=
  let new := buildNewSettings form current
  if new.console_end_port_range ≤ new.console_start_port_range then
    [Effect.reportError (UserError.InvalidConsoleRange
      new.console_start_port_range new.console_end_port_range)]
  else if new.udp_end_port_range ≤ new.udp_start_port_range then
    [Effect.reportError (UserError.InvalidUDPRange
      new.udp_start_port_range new.udp_end_port_range)]
  else if new.auto_start then
    if !env.isFile new.path then
      [Effect.reportError (UserError.ServerPathNotFound new.path)]
    else
      if new ≠ current then
        let local_nodes := localNodeNames env
        if local_nodes ≠ [] then
          execReports env new ++
            [Effect.reportError (UserError.ServerInUse local_nodes)]
        else
          execReports env new ++ writeEffects new remote ++ restartEffects env new
      else
        execReports env new ++ writeEffects new remote
  else
    Effect.stopLocalServer true :: writeEffects new remote

/-! ### Concrete instances

Concrete states, forms and environments used to witness the theorems
below on explicit inputs. -/

/-- An empty remote panel with a valid non-ssh entry typed into the
fields. -/
def st0 : RemotePanelState :=
  { protocolField := "HTTP", hostField := " server1 ", portField := 8000,
    userField := "", ssh_portField := 22, ssh_keyField := "",
    remote_servers := [], treeItems := [], next_server_id := 0 }

/-- The panel after one successful add from `st0`. -/
def st1 : RemotePanelState := (remoteServerAdd st0).1

/-- `st1` with the port spin box turned back to the port of the stored
record, so the typed entry duplicates it. -/
def stDup : RemotePanelState := { st1 with portField := 8000 }

/-- `st0` with an invalid hostname typed in. -/
def stHostBad : RemotePanelState := { st0 with hostField := "bad!" }

/-- An invalid hostname together with an invalid port. -/
def stHostBadPort : RemotePanelState := { stHostBad with portField := 0 }

/-- Protocol SSH with an empty user but also an invalid hostname. -/
def stSSHBadHost : RemotePanelState :=
  { st0 with protocolField := "SSH", hostField := "bad!", ssh_keyField := "/k" }

/-- Protocol SSH, valid host and port, empty (after stripping) user. -/
def stSSHNoUser : RemotePanelState :=
  { st0 with protocolField := "SSH", userField := " ", ssh_keyField := "/k" }

/-- An empty panel with a valid ssh entry typed into the fields. -/
def stSSH0 : RemotePanelState :=
  { protocolField := "SSH", hostField := "host1", portField := 8000,
    userField := "root", ssh_portField := 22, ssh_keyField := "/key",
    remote_servers := [], treeItems := [], next_server_id := 0 }

/-- The panel after one successful ssh add from `stSSH0`. -/
def stSSH1 : RemotePanelState := (remoteServerAdd stSSH0).1

/-- `stSSH1` with the port turned back (duplicating the stored
quadruple) but the ssh key field cleared. -/
def stSSHDupNoKey : RemotePanelState :=
  { stSSH1 with portField := 8000, ssh_keyField := "" }

/-- Currently persisted local-server settings (valid, auto-start on). -/
def cur0 : LocalServerSettings :=
  { path := "/usr/bin/gns3server", host := "127.0.0.1", port := 8000,
    auto_start := true, allow_console_from_anywhere := false,
    console_start_port_range := 2000, console_end_port_range := 2999,
    udp_start_port_range := 10000, udp_end_port_range := 20000,
    images_path := "/images", projects_path := "/projects",
    report_errors := true }

/-- `cur0` with auto-start off. -/
def curNoAuto : LocalServerSettings := { cur0 with auto_start := false }

/-- `cur0` with an inverted console port range already persisted. -/
def curBadRange : LocalServerSettings :=
  { cur0 with console_end_port_range := 1000 }

/-- Form fields reproducing `cur0` exactly. -/
def form0 : LocalServerForm :=
  { path := "/usr/bin/gns3server", host := "127.0.0.1", port := 8000,
    auto_start := true, allow_console_from_anywhere := false,
    console_start_port_range := 2000, console_end_port_range := 2999,
    udp_start_port_range := 10000, udp_end_port_range := 20000 }

/-- `form0` with a changed port (so the settings differ). -/
def formPort : LocalServerForm := { form0 with port := 8001 }

/-- `form0` with an inverted console port range. -/
def formBadRange : LocalServerForm :=
  { form0 with console_end_port_range := 1000 }

/-- `form0` with auto-start off. -/
def formNoAuto : LocalServerForm := { form0 with auto_start := false }

/-- Auto-start off and an inverted console port range. -/
def formNoAutoBadRange : LocalServerForm :=
  { formBadRange with auto_start := false }

/-- Environment where `cur0.path` is an executable file, there are no
topology nodes and the server process starts successfully. -/
def env0 : SaveEnv :=
  { isFile := fun p => p == "/usr/bin/gns3server",
    isExecutable := fun p => p == "/usr/bin/gns3server",
    nodes := [], startSucceeds := true }

/-- `env0` with no file at any path. -/
def envMissing : SaveEnv := { env0 with isFile := fun _ => false }

/-- `env0` with no executable bit anywhere. -/
def envNotExec : SaveEnv := { env0 with isExecutable := fun _ => false }

/-- `env0` with one node running on the local server. -/
def envNode : SaveEnv :=
  { env0 with nodes := [{ name := "R1", isLocal := true }] }

/-! ### Helper lemmas -/

/-- A string has length zero exactly when it is empty. -/
lemma string_length_zero_iff (s : String) : s.length = 0 ↔ s = "" := by
  constructor
  · intro h
    cases s with
    | mk data =>
      cases data with
      | nil => rfl
      | cons a l => simp [String.length] at h
  · intro h
    subst h
    rfl

/-- The hostname pattern matches exactly the non-empty strings all of
whose characters are in the allowed class. -/
lemma hostMatches_iff (s : String) :
    hostMatches s = true ↔ s ≠ "" ∧ ∀ c ∈ s.toList, hostAllowedChar c = true := by
  simp [hostMatches, List.all_eq_true]

/-- Appending a record whose quadruple differs from that of every record
of the collection preserves quadruple-uniqueness. -/
lemma noDupQuad_append (l : List (Nat × RemoteServerSettings))
    (x : Nat × RemoteServerSettings) (h : noDupQuad l)
    (hall : ∀ p ∈ l, sameQuad p.2 x.2.protocol x.2.host x.2.port x.2.user = false) :
    noDupQuad (l ++ [x]) := by
  unfold noDupQuad at h ⊢
  refine List.pairwise_append.mpr ⟨h, by simp, ?_⟩
  intro a ha b hb
  rw [List.mem_singleton] at hb
  subst hb
  exact hall a ha

/-- Outcome analysis of `remoteServerAdd`: either some validation fails,
with the state unchanged and an error dialog shown, or every validation
passes (in particular the duplicate check comes back negative) and the
record is inserted under the fresh id. -/
lemma remoteServerAdd_cases (st : RemotePanelState) :
    ((∃ e, (remoteServerAdd st).2 = some e) ∧ (remoteServerAdd st).1 = st) ∨
    ((remoteServerAdd st).2 = none ∧
     (remoteServerAdd st).1 = { st with
        remote_servers := st.remote_servers ++ [(st.next_server_id, newRecord st)]
        treeItems := st.treeItems ++ [newTreeItem st]
        portField := st.portField + 1
        next_server_id := st.next_server_id + 1 } ∧
     (st.remote_servers.any (fun p => sameQuad p.2 (pyLower st.protocolField)
        (pyStrip st.hostField) st.portField (pyStrip st.userField))) = false) := by
  simp only [remoteServerAdd]
  split
  · exact Or.inl ⟨⟨_, rfl⟩, rfl⟩
  · split
    · exact Or.inl ⟨⟨_, rfl⟩, rfl⟩
    · split
      · exact Or.inl ⟨⟨_, rfl⟩, rfl⟩
      · split
        · exact Or.inl ⟨⟨_, rfl⟩, rfl⟩
        · split
          · exact Or.inl ⟨⟨_, rfl⟩, rfl⟩
          · rename_i h5
            exact Or.inr ⟨rfl, rfl, by simpa using h5⟩

/-- When the hostname and port checks pass, the add slot can only report
a missing credential, a duplicate, or succeed. -/
lemma remoteServerAdd_no_host_port_error (st : RemotePanelState)
    (h1 : hostMatches (pyStrip st.hostField) = true)
    (h2 : ¬ st.portField < 1) :
    (remoteServerAdd st).2 = some UserError.MissingUser ∨
    (remoteServerAdd st).2 = some UserError.MissingSSHKey ∨
    (remoteServerAdd st).2 = some UserError.DuplicateServer ∨
    (remoteServerAdd st).2 = none := by
  simp only [remoteServerAdd]
  rw [if_neg (by simp [h1]), if_neg h2]
  split
  · exact Or.inl rfl
  · split
    · exact Or.inr (Or.inl rfl)
    · split
      · exact Or.inr (Or.inr (Or.inl rfl))
      · exact Or.inr (Or.inr (Or.inr rfl))

/-! ### Claims -/

/-- Claim C1: during `savePreferences` with auto-start enabled, when the
configured path exists as a regular file but is not executable, the
ServerNotExecutable error is reported but the save does not abort:
provided the other validations pass (valid port ranges and no node bound
to the local server), it still writes the new local settings, replaces
the remote servers and persists. -/
theorem C1_not_executable_reported_but_save_proceeds (env : SaveEnv)
    (current : LocalServerSettings) (remote : List (Nat × RemoteServerSettings))
    (form : LocalServerForm)
    (new : LocalServerSettings) (hnew : new = buildNewSettings form current)
    (hc : new.console_start_port_range < new.console_end_port_range)
    (hu : new.udp_start_port_range < new.udp_end_port_range)
    (ha : new.auto_start = true)
    (hf : env.isFile new.path = true)
    (hx : env.isExecutable new.path = false)
    (hn : localNodeNames env = []) :
    Effect.reportError (UserError.ServerNotExecutable new.path) ∈
      savePreferences env current remote form ∧
    Effect.setLocalServerSettings new ∈ savePreferences env current remote form ∧
    Effect.updateRemoteServers remote ∈ savePreferences env current remote form ∧
    Effect.persist ∈ savePreferences env current remote form := by
  subst hnew
  by_cases hch : buildNewSettings form current = current
  · rw [hch] at hc hu ha hf hx ⊢
    have he : savePreferences env current remote form =
        execReports env current ++ writeEffects current remote := by
      unfold savePreferences
      simp [hch, not_le_of_lt hc, not_le_of_lt hu, ha, hf]
    rw [he]
    simp [execReports, hx, writeEffects]
  · have he : savePreferences env current remote form =
        execReports env (buildNewSettings form current) ++
          writeEffects (buildNewSettings form current) remote ++
          restartEffects env (buildNewSettings form current) := by
      unfold savePreferences
      simp [hch, not_le_of_lt hc, not_le_of_lt hu, ha, hf, hn]
    rw [he]
    simp [execReports, hx, writeEffects]

/-- Claim C1, witnessed: changed settings, the path a non-executable
file, no local nodes — the error is reported and all three writes
happen. -/
theorem C1_witness :
    Effect.reportError (UserError.ServerNotExecutable
      (buildNewSettings formPort cur0).path) ∈
      savePreferences envNotExec cur0 [] formPort ∧
    Effect.setLocalServerSettings (buildNewSettings formPort cur0) ∈
      savePreferences envNotExec cur0 [] formPort ∧
    Effect.updateRemoteServers [] ∈ savePreferences envNotExec cur0 [] formPort ∧
    Effect.persist ∈ savePreferences envNotExec cur0 [] formPort :=
  C1_not_executable_reported_but_save_proceeds envNotExec cur0 [] formPort
    (buildNewSettings formPort cur0) rfl
    (by decide) (by decide) (by decide) (by decide) (by decide) (by decide)

/-- Claim C2 fails as stated: with auto-start on, changed settings and a
node on the local server, but an inverted console port range, the save
reports InvalidRange, not ServerInUse. -/
theorem C2_counterexample :
    (buildNewSettings formBadRange cur0).auto_start = true ∧
    buildNewSettings formBadRange cur0 ≠ cur0 ∧
    envNode.nodes.filter (fun n => n.isLocal) ≠ [] ∧
    (savePreferences envNode cur0 [] formBadRange).any isServerInUseReport = false := by
  decide

/-- Claim C2 (amended: provided the earlier validations pass — valid
port ranges and an existing file at the path): when auto-start is
enabled, the candidate settings differ from the persisted ones and at
least one open-topology node is bound to the local server, the save
blocks with ServerInUse naming those nodes, and every emitted effect is
an error dialog — no write, no stop, no restart. -/
theorem C2_server_in_use_blocks (env : SaveEnv) (current : LocalServerSettings)
    (remote : List (Nat × RemoteServerSettings)) (form : LocalServerForm)
    (new : LocalServerSettings) (hnew : new = buildNewSettings form current)
    (hc : new.console_start_port_range < new.console_end_port_range)
    (hu : new.udp_start_port_range < new.udp_end_port_range)
    (ha : new.auto_start = true)
    (hf : env.isFile new.path = true)
    (hch : new ≠ current)
    (hn : localNodeNames env ≠ []) :
    Effect.reportError (UserError.ServerInUse (localNodeNames env)) ∈
      savePreferences env current remote form ∧
    (savePreferences env current remote form).all isErrorReport = true := by
  subst hnew
  have he : savePreferences env current remote form =
      execReports env (buildNewSettings form current) ++
        [Effect.reportError (UserError.ServerInUse (localNodeNames env))] := by
    unfold savePreferences
    simp [not_le_of_lt hc, not_le_of_lt hu, ha, hf, hch, hn]
  rw [he]
  cases hx : env.isExecutable (buildNewSettings form current).path <;>
    simp [execReports, isErrorReport, hx]

/-- Claim C2, witnessed on a changed form with one local node. -/
theorem C2_witness :
    Effect.reportError (UserError.ServerInUse (localNodeNames envNode)) ∈
      savePreferences envNode cur0 [] formPort ∧
    (savePreferences envNode cur0 [] formPort).all isErrorReport = true :=
  C2_server_in_use_blocks envNode cur0 [] formPort
    (buildNewSettings formPort cur0) rfl
    (by decide) (by decide) (by decide) (by decide) (by decide) (by decide)

/-- Claim C3 fails as stated: a call whose (protocol, host, port, user)
quadruple equals that of an existing ssh record but whose ssh key field
is empty fails with MissingSSHKey, not DuplicateServer (the candidate
set is still left unchanged). -/
theorem C3_counterexample :
    (stSSHDupNoKey.remote_servers.any (fun p => sameQuad p.2
      (pyLower stSSHDupNoKey.protocolField) (pyStrip stSSHDupNoKey.hostField)
      stSSHDupNoKey.portField (pyStrip stSSHDupNoKey.userField))) = true ∧
    (remoteServerAdd stSSHDupNoKey).2 = some UserError.MissingSSHKey ∧
    (remoteServerAdd stSSHDupNoKey).2 ≠ some UserError.DuplicateServer := by
  decide

/-- Claim C3 (amended: the duplicate is rejected with DuplicateServer
provided the call passes the field validations — valid host, port ≥ 1
and, for ssh, a non-empty user and ssh key): no two records of the
candidate set ever share (protocol, host, port, user) — add, delete and
load all preserve the invariant — and an add whose quadruple equals that
of an existing record fails, leaving the candidate set unchanged. -/
theorem C3_uniqueness_invariant :
    (∀ st : RemotePanelState, noDupQuad st.remote_servers →
      noDupQuad (remoteServerAdd st).1.remote_servers) ∧
    (∀ (st : RemotePanelState) (sel : Option Nat), noDupQuad st.remote_servers →
      noDupQuad (remoteServerDelete st sel).remote_servers) ∧
    (∀ (st : RemotePanelState) (ext : List (Nat × RemoteServerSettings)),
      noDupQuad ext → noDupQuad (loadRemoteServers st ext).remote_servers) ∧
    (∀ st : RemotePanelState,
      (st.remote_servers.any (fun p => sameQuad p.2 (pyLower st.protocolField)
        (pyStrip st.hostField) st.portField (pyStrip st.userField))) = true →
      hostMatches (pyStrip st.hostField) = true →
      1 ≤ st.portField →
      (pyLower st.protocolField = "ssh" →
        pyStrip st.userField ≠ "" ∧ pyStrip st.ssh_keyField ≠ "") →
      (remoteServerAdd st).2 = some UserError.DuplicateServer ∧
        (remoteServerAdd st).1 = st) := by
  refine ⟨?_, ?_, ?_, ?_⟩
  · intro st h
    rcases remoteServerAdd_cases st with ⟨_, hst⟩ | ⟨_, hst, hany⟩
    · rw [hst]; exact h
    · rw [hst]
      refine noDupQuad_append _ _ h ?_
      intro p hp
      rw [List.any_eq_false] at hany
      have h0 := hany p hp
      simpa [newRecord] using h0
  · intro st sel h
    unfold noDupQuad at h ⊢
    cases sel with
    | none => simpa [remoteServerDelete] using h
    | some idx =>
      cases hit : st.treeItems[idx]? with
      | none => simpa [remoteServerDelete, hit] using h
      | some item =>
        simp only [remoteServerDelete, hit]
        exact List.Pairwise.sublist (List.filter_sublist _) h
  · intro st ext h
    exact h
  · intro st hdup hh hp hssh
    have h2 : ¬ st.portField < 1 := by omega
    have h3 : ¬ ((pyLower st.protocolField == "ssh" &&
        (pyStrip st.userField).length == 0) = true) := by
      simp only [Bool.and_eq_true, beq_iff_eq]
      rintro ⟨hpr, hlen⟩
      exact (hssh hpr).1 ((string_length_zero_iff _).mp hlen)
    have h4 : ¬ ((pyLower st.protocolField == "ssh" &&
        (pyStrip st.ssh_keyField).length == 0) = true) := by
      simp only [Bool.and_eq_true, beq_iff_eq]
      rintro ⟨hpr, hlen⟩
      exact (hssh hpr).2 ((string_length_zero_iff _).mp hlen)
    simp only [remoteServerAdd]
    rw [if_neg (by simp [hh]), if_neg h2, if_neg h3, if_neg h4, if_pos hdup]
    exact ⟨rfl, rfl⟩

/-- Claim C3, witnessed: re-adding the quadruple of a stored record
fails with DuplicateServer and changes nothing. -/
theorem C3_witness :
    (remoteServerAdd stDup).2 = some UserError.DuplicateServer ∧
    (remoteServerAdd stDup).1 = stDup :=
  C3_uniqueness_invariant.2.2.2 stDup (by decide) (by decide) (by decide) (by decide)

/-- Claim C4 fails as stated: with protocol ssh and an empty user but an
invalid hostname, the add fails with InvalidHost, not MissingCredential
(the state is still unchanged). -/
theorem C4_counterexample :
    pyLower stSSHBadHost.protocolField = "ssh" ∧
    pyStrip stSSHBadHost.userField = "" ∧
    (remoteServerAdd stSSHBadHost).2 = some (UserError.InvalidHost "bad!") ∧
    isMissingCredential (UserError.InvalidHost "bad!") = false := by
  decide

/-- Claim C4 (amended: provided the hostname and port validations pass):
with protocol ssh, an empty stripped user or an empty stripped ssh key
makes the add fail with a MissingCredential dialog and leave the whole
panel state — candidate set, tree rows and port field included —
unchanged. -/
theorem C4_ssh_missing_credential (st : RemotePanelState)
    (hh : hostMatches (pyStrip st.hostField) = true)
    (hp : 1 ≤ st.portField)
    (hs : pyLower st.protocolField = "ssh")
    (hmiss : pyStrip st.userField = "" ∨ pyStrip st.ssh_keyField = "") :
    (∃ e, (remoteServerAdd st).2 = some e ∧ isMissingCredential e = true) ∧
    (remoteServerAdd st).1 = st := by
  have h2 : ¬ st.portField < 1 := by omega
  simp only [remoteServerAdd]
  rw [if_neg (by simp [hh]), if_neg h2]
  by_cases huser : pyStrip st.userField = ""
  · rw [if_pos (by simp [hs, huser])]
    exact ⟨⟨_, rfl, rfl⟩, rfl⟩
  · have hkey : pyStrip st.ssh_keyField = "" := hmiss.resolve_left huser
    rw [if_neg (by
      simp only [Bool.and_eq_true, beq_iff_eq]
      rintro ⟨-, hlen⟩
      exact huser ((string_length_zero_iff _).mp hlen))]
    rw [if_pos (by simp [hs, hkey])]
    exact ⟨⟨_, rfl, rfl⟩, rfl⟩

/-- Claim C4, witnessed: ssh with a whitespace-only user fails with a
missing-credential dialog and no state change. -/
theorem C4_witness :
    (∃ e, (remoteServerAdd stSSHNoUser).2 = some e ∧ isMissingCredential e = true) ∧
    (remoteServerAdd stSSHNoUser).1 = stSSHNoUser :=
  C4_ssh_missing_credential stSSHNoUser (by decide) (by decide) (by decide)
    (Or.inl (by decide))

/-- Claim C5: `savePreferences` validates the port ranges in order —
console first, then UDP — and on either violation (end ≤ start) it
reports InvalidRange and performs no writes (its whole effect trace is
that one dialog); when both ranges are invalid the console-range error
is the one reported. -/
theorem C5_range_validation_order (env : SaveEnv) (current : LocalServerSettings)
    (remote : List (Nat × RemoteServerSettings)) (form : LocalServerForm)
    (new : LocalServerSettings) (hnew : new = buildNewSettings form current)
    (h : new.console_end_port_range ≤ new.console_start_port_range ∨
         new.udp_end_port_range ≤ new.udp_start_port_range) :
    (∃ e, savePreferences env current remote form = [Effect.reportError e] ∧
      isInvalidRange e = true) ∧
    (new.console_end_port_range ≤ new.console_start_port_range →
      savePreferences env current remote form =
        [Effect.reportError (UserError.InvalidConsoleRange
          new.console_start_port_range new.console_end_port_range)]) ∧
    (¬ new.console_end_port_range ≤ new.console_start_port_range →
      new.udp_end_port_range ≤ new.udp_start_port_range →
      savePreferences env current remote form =
        [Effect.reportError (UserError.InvalidUDPRange
          new.udp_start_port_range new.udp_end_port_range)]) := by
  subst hnew
  by_cases hc : (buildNewSettings form current).console_end_port_range ≤
      (buildNewSettings form current).console_start_port_range
  · have he : savePreferences env current remote form =
        [Effect.reportError (UserError.InvalidConsoleRange
          (buildNewSettings form current).console_start_port_range
          (buildNewSettings form current).console_end_port_range)] := by
      unfold savePreferences
      simp [hc]
    exact ⟨⟨_, he, rfl⟩, fun _ => he, fun hcontra _ => absurd hc hcontra⟩
  · have hu : (buildNewSettings form current).udp_end_port_range ≤
        (buildNewSettings form current).udp_start_port_range := h.resolve_left hc
    have he : savePreferences env current remote form =
        [Effect.reportError (UserError.InvalidUDPRange
          (buildNewSettings form current).udp_start_port_range
          (buildNewSettings form current).udp_end_port_range)] := by
      unfold savePreferences
      simp [hc, hu]
    exact ⟨⟨_, he, rfl⟩, fun hcc => absurd hcc hc, fun _ _ => he⟩

/-- Claim C5, witnessed on an inverted console range. -/
theorem C5_witness :
    ∃ e, savePreferences env0 cur0 [] formBadRange = [Effect.reportError e] ∧
      isInvalidRange e = true :=
  (C5_range_validation_order env0 cur0 [] formBadRange
    (buildNewSettings formBadRange cur0) rfl (Or.inl (by decide))).1

/-- Claim C6 fails as stated: with auto-start on and a missing path but
an inverted console range, the save reports InvalidRange, not
ServerPathNotFound. -/
theorem C6_counterexample :
    (buildNewSettings formBadRange cur0).auto_start = true ∧
    envMissing.isFile (buildNewSettings formBadRange cur0).path = false ∧
    (savePreferences envMissing cur0 [] formBadRange).any isPathNotFoundReport = false := by
  decide

/-- Claim C6 (amended: provided the port-range validations pass): with
auto-start enabled and a path that is not an existing regular file, the
save fails with ServerPathNotFound and performs no writes — its whole
effect trace is that one dialog. -/
theorem C6_path_not_found (env : SaveEnv) (current : LocalServerSettings)
    (remote : List (Nat × RemoteServerSettings)) (form : LocalServerForm)
    (new : LocalServerSettings) (hnew : new = buildNewSettings form current)
    (hc : new.console_start_port_range < new.console_end_port_range)
    (hu : new.udp_start_port_range < new.udp_end_port_range)
    (ha : new.auto_start = true)
    (hf : env.isFile new.path = false) :
    savePreferences env current remote form =
      [Effect.reportError (UserError.ServerPathNotFound new.path)] := by
  subst hnew
  unfold savePreferences
  simp [not_le_of_lt hc, not_le_of_lt hu, ha, hf]

/-- Claim C6, witnessed on a missing server binary. -/
theorem C6_witness :
    savePreferences envMissing cur0 [] form0 =
      [Effect.reportError (UserError.ServerPathNotFound
        (buildNewSettings form0 cur0).path)] :=
  C6_path_not_found envMissing cur0 [] form0 (buildNewSettings form0 cur0) rfl
    (by decide) (by decide) (by decide) (by decide)

/-- Claim C7: a successful add assigns the freshly generated identifier,
distinct (under the fresh-id invariant) from every identifier already in
the candidate set, inserts the record so that it occurs exactly once,
appends the tree row, increments the port field by exactly one, and
leaves every other field untouched. -/
theorem C7_add_success_effects (st : RemotePanelState)
    (hfresh : idsFresh st = true)
    (hok : (remoteServerAdd st).2 = none) :
    (∀ p ∈ st.remote_servers, p.1 ≠ st.next_server_id) ∧
    (remoteServerAdd st).1.remote_servers =
      st.remote_servers ++ [(st.next_server_id, newRecord st)] ∧
    ((remoteServerAdd st).1.remote_servers.map Prod.snd).count (newRecord st) = 1 ∧
    (remoteServerAdd st).1.treeItems = st.treeItems ++ [newTreeItem st] ∧
    (remoteServerAdd st).1.portField = st.portField + 1 ∧
    (remoteServerAdd st).1.protocolField = st.protocolField ∧
    (remoteServerAdd st).1.hostField = st.hostField ∧
    (remoteServerAdd st).1.userField = st.userField ∧
    (remoteServerAdd st).1.ssh_portField = st.ssh_portField ∧
    (remoteServerAdd st).1.ssh_keyField = st.ssh_keyField := by
  have hfresh' : ∀ p ∈ st.remote_servers, p.1 ≠ st.next_server_id := by
    intro p hp
    have h0 := List.all_eq_true.mp hfresh p hp
    have h1 : p.1 < st.next_server_id := by simpa using h0
    omega
  rcases remoteServerAdd_cases st with ⟨⟨e, he⟩, -⟩ | ⟨-, hst, hany⟩
  · rw [hok] at he
    exact absurd he (by simp)
  · have hcount : ((st.remote_servers ++
        [(st.next_server_id, newRecord st)]).map Prod.snd).count (newRecord st) = 1 := by
      rw [List.map_append, List.count_append]
      have h0 : (st.remote_servers.map Prod.snd).count (newRecord st) = 0 := by
        rw [List.count_eq_zero]
        intro hmem
        rw [List.mem_map] at hmem
        obtain ⟨p, hp, hpe⟩ := hmem
        rw [List.any_eq_false] at hany
        have h1 := hany p hp
        rw [hpe] at h1
        simp [sameQuad, newRecord] at h1
      rw [h0]
      simp
    rw [hst]
    exact ⟨hfresh', rfl, by simpa using hcount, rfl, rfl, rfl, rfl, rfl, rfl, rfl⟩

/-- Claim C7, witnessed on a first add into an empty panel. -/
theorem C7_witness :
    (∀ p ∈ st0.remote_servers, p.1 ≠ st0.next_server_id) ∧
    (remoteServerAdd st0).1.remote_servers =
      st0.remote_servers ++ [(st0.next_server_id, newRecord st0)] ∧
    ((remoteServerAdd st0).1.remote_servers.map Prod.snd).count (newRecord st0) = 1 ∧
    (remoteServerAdd st0).1.treeItems = st0.treeItems ++ [newTreeItem st0] ∧
    (remoteServerAdd st0).1.portField = st0.portField + 1 ∧
    (remoteServerAdd st0).1.protocolField = st0.protocolField ∧
    (remoteServerAdd st0).1.hostField = st0.hostField ∧
    (remoteServerAdd st0).1.userField = st0.userField ∧
    (remoteServerAdd st0).1.ssh_portField = st0.ssh_portField ∧
    (remoteServerAdd st0).1.ssh_keyField = st0.ssh_keyField :=
  C7_add_success_effects st0 (by decide) (by decide)

/-- Claim C8 fails as stated: when the persisted settings themselves
carry an inverted console range and the candidate is identical, the save
aborts with InvalidRange and writes nothing. -/
theorem C8_counterexample :
    buildNewSettings formBadRange curBadRange = curBadRange ∧
    Effect.setLocalServerSettings curBadRange ∉
      savePreferences env0 curBadRange [] formBadRange := by
  decide

/-- Claim C8 (amended: provided the validations pass — valid port
ranges and, when auto-start is on, an existing file at the path): a save
whose candidate settings are identical to the persisted ones still
performs the three writes but never starts the server process and never
enters the connection wait. -/
theorem C8_identical_settings_write_no_restart (env : SaveEnv)
    (current : LocalServerSettings) (remote : List (Nat × RemoteServerSettings))
    (form : LocalServerForm)
    (hid : buildNewSettings form current = current)
    (hc : current.console_start_port_range < current.console_end_port_range)
    (hu : current.udp_start_port_range < current.udp_end_port_range)
    (hf : current.auto_start = true → env.isFile current.path = true) :
    Effect.setLocalServerSettings current ∈ savePreferences env current remote form ∧
    Effect.updateRemoteServers remote ∈ savePreferences env current remote form ∧
    Effect.persist ∈ savePreferences env current remote form ∧
    (∀ b, Effect.startLocalServer b ∉ savePreferences env current remote form) ∧
    (∀ h p, Effect.waitForConnection h p ∉ savePreferences env current remote form) := by
  by_cases ha : current.auto_start = true
  · have he : savePreferences env current remote form =
        execReports env current ++ writeEffects current remote := by
      unfold savePreferences
      simp [hid, not_le_of_lt hc, not_le_of_lt hu, ha, hf ha]
    rw [he]
    cases hx : env.isExecutable current.path <;>
      simp [execReports, writeEffects, hx]
  · have ha' : current.auto_start = false := by simpa using ha
    have he : savePreferences env current remote form =
        Effect.stopLocalServer true :: writeEffects current remote := by
      unfold savePreferences
      simp [hid, not_le_of_lt hc, not_le_of_lt hu, ha']
    rw [he]
    simp [writeEffects]

/-- Claim C8, witnessed: saving `cur0` unchanged writes but does not
restart. -/
theorem C8_witness :
    Effect.setLocalServerSettings cur0 ∈ savePreferences env0 cur0 [] form0 ∧
    Effect.updateRemoteServers [] ∈ savePreferences env0 cur0 [] form0 ∧
    Effect.persist ∈ savePreferences env0 cur0 [] form0 ∧
    (∀ b, Effect.startLocalServer b ∉ savePreferences env0 cur0 [] form0) ∧
    (∀ h p, Effect.waitForConnection h p ∉ savePreferences env0 cur0 [] form0) :=
  C8_identical_settings_write_no_restart env0 cur0 [] form0
    (by decide) (by decide) (by decide) (by decide)

/-- Claim C9 fails as stated: with an invalid hostname and a port below
1, the add fails with InvalidHost, not InvalidPort — the port check is
not an exact characterization because the host check runs first. -/
theorem C9_counterexample :
    stHostBadPort.portField < 1 ∧
    (remoteServerAdd stHostBadPort).2 = some (UserError.InvalidHost "bad!") ∧
    isInvalidPortError (remoteServerAdd stHostBadPort).2 = false := by
  decide

/-- Claim C9 (amended: the InvalidPort characterization additionally
requires the host to be accepted, since the host check runs first): the
host is accepted — that is, the add does not fail with InvalidHost —
exactly when the stripped host is non-empty and every character belongs
to the allowed class; and the add fails with InvalidPort exactly when
the host is accepted and the port is below 1. -/
theorem C9_host_port_validation (st : RemotePanelState) :
    ((∃ h, (remoteServerAdd st).2 = some (UserError.InvalidHost h)) ↔
      ¬(pyStrip st.hostField ≠ "" ∧
        ∀ c ∈ (pyStrip st.hostField).toList, hostAllowedChar c = true)) ∧
    (isInvalidPortError (remoteServerAdd st).2 = true ↔
      (pyStrip st.hostField ≠ "" ∧
        ∀ c ∈ (pyStrip st.hostField).toList, hostAllowedChar c = true) ∧
      st.portField < 1) := by
  by_cases h1 : hostMatches (pyStrip st.hostField) = true
  · have hcond := (hostMatches_iff _).mp h1
    by_cases h2 : st.portField < 1
    · have he : (remoteServerAdd st).2 = some (UserError.InvalidPort st.portField) := by
        simp only [remoteServerAdd]
        rw [if_neg (by simp [h1]), if_pos h2]
      rw [he]
      exact ⟨iff_of_false (by simp) (not_not_intro hcond),
        iff_of_true (by simp [isInvalidPortError]) ⟨hcond, h2⟩⟩
    · rcases remoteServerAdd_no_host_port_error st h1 h2 with he | he | he | he <;>
        rw [he] <;>
        exact ⟨iff_of_false (by simp) (not_not_intro hcond),
          iff_of_false (by simp [isInvalidPortError]) (fun hc => h2 hc.2)⟩
  · have hcond : ¬(pyStrip st.hostField ≠ "" ∧
        ∀ c ∈ (pyStrip st.hostField).toList, hostAllowedChar c = true) :=
      fun hc => h1 ((hostMatches_iff _).mpr hc)
    have he : (remoteServerAdd st).2 =
        some (UserError.InvalidHost (pyStrip st.hostField)) := by
      simp only [remoteServerAdd]
      rw [if_pos (by simpa using h1)]
    rw [he]
    exact ⟨iff_of_true ⟨_, rfl⟩ hcond,
      iff_of_false (by simp [isInvalidPortError]) (fun hc => hcond hc.1)⟩

/-- Claim C10 fails as stated: with auto-start off but an inverted
console range, the save aborts before stopping the local server — no
stop happens at all. -/
theorem C10_counterexample :
    (buildNewSettings formNoAutoBadRange cur0).auto_start = false ∧
    Effect.stopLocalServer true ∉ savePreferences env0 cur0 [] formNoAutoBadRange := by
  decide

/-- Claim C10 (amended: provided the port-range validations pass): when
auto-start is disabled in the candidate settings, the save stops the
local server with a blocking call as its very first effect, before the
three writes — with no condition on the previously persisted auto-start
value. -/
theorem C10_stop_before_writes (env : SaveEnv) (current : LocalServerSettings)
    (remote : List (Nat × RemoteServerSettings)) (form : LocalServerForm)
    (new : LocalServerSettings) (hnew : new = buildNewSettings form current)
    (hc : new.console_start_port_range < new.console_end_port_range)
    (hu : new.udp_start_port_range < new.udp_end_port_range)
    (ha : new.auto_start = false) :
    savePreferences env current remote form =
      Effect.stopLocalServer true :: writeEffects new remote := by
  subst hnew
  unfold savePreferences
  simp [not_le_of_lt hc, not_le_of_lt hu, ha]

/-- Claim C10, witnessed with auto-start already off in the persisted
settings: the stop still happens, first. -/
theorem C10_witness :
    savePreferences env0 curNoAuto [] formNoAuto =
      Effect.stopLocalServer true ::
        writeEffects (buildNewSettings formNoAuto curNoAuto) [] :=
  C10_stop_before_writes env0 curNoAuto [] formNoAuto
    (buildNewSettings formNoAuto curNoAuto) rfl (by decide) (by decide) (by decide)
